import Mathlib

/-!
Verification of parlai/tasks/style_gen/agents.py.

The file under verification is glue code around the ParlAI teacher framework:
four Labeled* teacher constructors that compute a style-labeled data file path
and hand it to a generic dialogue-file reader, and the adapter
PrevCurrUttStyleTeacher whose act method rewrites the fields of each turn
fetched from an inner data source.

Modelling choices, stated once here:

* A turn (a parlai.core.message.Message, a dict subclass) is modelled as an
  ordered association list from field names to field values.  The fields this
  teacher manipulates hold strings, lists of strings, and booleans, so field
  values are restricted to those three shapes; an access that would be
  ill-typed in Python (for example calling split on a non-string) is modelled
  by a typeError outcome.
* Python exceptions (ValueError, AssertionError from a failed assert, KeyError
  from indexing a missing dict key) are modelled by the Except monad.
* copy.deepcopy of a message is a value copy, so in the pure embedding the
  fresh copy starts equal to the original; in-place dict assignment and
  Message.force_set are modelled by setKey, which replaces the value at the
  first occurrence of the key and appends the pair when the key is absent,
  exactly the key/value behaviour of a Python dict update.
* The methods get_orig_action and process_action of the inner task come from
  parlai/core/teachers.py and parlai/tasks/wrapper/agents.py, which are not
  part of the sources under verification; they are modelled from the spec
  where marked below.
-/

/-- A field value of a turn: the turns handled by this task hold strings
(text, personality), lists of strings (labels), and booleans (episode_done). -/
inductive FValue where
  | str : String → FValue
  | strList : List String → FValue
  | bool : Bool → FValue
deriving DecidableEq, Repr

/-- A turn (Message): an ordered association list from field names to values,
modelling a Python dict with string keys. -/
abbrev Message := List (String × FValue)

/-- Model of in-place assignment d[k] = v on a Python dict represented as an
ordered association list: replace the value at the first occurrence of the
key, or append the new pair when the key is absent. -/
def setKey {α : Type} : List (String × α) → String → α → List (String × α)
  | [], k, v => [(k, v)]
  | p :: rest, k, v => if p.1 = k then (k, v) :: rest else p :: setKey rest k v

/-- Message.force_set(key, value): sets the field unconditionally. -/
def Message.force_set (m : Message) (k : String) (v : FValue) : Message :=
  setKey m k v

/-- Python exceptions raised by the code under verification. -/
inductive ActError where
  | valueError : String → ActError
  | assertionError : ActError
  | keyError : String → ActError
  | typeError : String → ActError
deriving DecidableEq, Repr

/-- Model of the Python expression s.split(c) for a one-character separator:
split on every occurrence of the separator, keeping empty pieces, so the
result is always nonempty. -/
def pySplit (c : Char) (s : String) : List String :=
  (s.toList.splitOn c).map List.asString

/-- Modelled from the spec: process_action on the inner task (the wrapper
contract of parlai/tasks/wrapper/agents.py and parlai/core/teachers.py, not
among the sources under verification).  Per the spec it advances the inner
source past the produced turn; it is not described as altering the payload of
the turn it is given, so it is modelled as the identity on the turn. -/
def FixedDialogTeacher.process_action (m : Message) : Message := m

/-- The body of PrevCurrUttStyleTeacher.act from fetching the turn up to, but
not including, the final process_action call.  The argument is the turn
returned by self.task.get_orig_action().  On success the result carries the
values of the two locals at the point of the final lines: first the variable
orig_act (never reassigned by the body) and second the edited deep copy
new_act.  Every raised exception becomes an error outcome. -/
def PrevCurrUttStyleTeacher.actSteps (orig_act : Message) :
    Except ActError (Message × Message) :=
  -- new_act = copy.deepcopy(orig_act)
  let new_act : Message := orig_act
  -- if "labels" in orig_act:
  match orig_act.lookup "labels" with
  | some (FValue.strList labels) =>
    -- if len(labels) != 1: raise ValueError(...)
    if labels.length ≠ 1 then
      Except.error (ActError.valueError
        "PrevCurrUttStyleTeacher can only be used with one label!")
    -- assert: labels[0] must not contain a newline
    else if labels.headI.toList.contains '\n' then
      Except.error ActError.assertionError
    else
      -- new_act.force_set("text", new_act["text"].split("\n")[-1] + "\n" + labels[0])
      match new_act.lookup "text" with
      | some (FValue.str t) =>
        let new_act := new_act.force_set "text"
          (FValue.str ((pySplit '\n' t).getLastD "" ++ "\n" ++ labels.headI))
        -- new_act.force_set("labels", [new_act["personality"]])
        match new_act.lookup "personality" with
        | some (FValue.str p) =>
          let new_act := new_act.force_set "labels" (FValue.strList [p])
          -- new_act.force_set("episode_done", True)
          let new_act := new_act.force_set "episode_done" (FValue.bool true)
          Except.ok (orig_act, new_act)
        | none => Except.error (ActError.keyError "personality")
        | some _ => Except.error (ActError.typeError "personality")
      | none => Except.error (ActError.keyError "text")
      | some _ => Except.error (ActError.typeError "text")
  | some _ => Except.error (ActError.typeError "labels")
  | none =>
    -- assert "text" not in orig_act and orig_act["episode_done"] is True
    if (orig_act.lookup "text").isSome then
      Except.error ActError.assertionError
    else
      match orig_act.lookup "episode_done" with
      | some v =>
        if v = FValue.bool true then
          let new_act := new_act.force_set "episode_done" (FValue.bool true)
          Except.ok (orig_act, new_act)
        else Except.error ActError.assertionError
      | none => Except.error (ActError.keyError "episode_done")

/-- PrevCurrUttStyleTeacher.act: runs the body above and then returns
final_action = self.task.process_action(orig_act).  Note that the source
passes orig_act, not the edited copy new_act, to process_action. -/
def PrevCurrUttStyleTeacher.act (orig_act : Message) : Except ActError Message :=
  (PrevCurrUttStyleTeacher.actSteps orig_act).map
    (fun p => FixedDialogTeacher.process_action p.1)

/-- An options mapping (Opt): string-keyed, string-valued for the keys this
file touches (datapath, datatype, parlaidialogteacher_datafile). -/
abbrev Opt := List (String × String)

/-- Model of opt[k] = v. -/
def Opt.set (o : Opt) (k v : String) : Opt := setKey o k v

/-- The build status of the two on-disk artifacts produced by the excluded
builder module parlai/tasks/style_gen/build.py. -/
structure BuildState where
  styleLabeledBuilt : Bool
  personalityListBuilt : Bool
deriving DecidableEq, Repr

/-- Modelled from the spec: build_style_labeled_datasets from the excluded
builder module — an idempotent ensure-built (build-if-absent) step for the
style-labeled datasets; it produces no change to the options mapping. -/
def build_style_labeled_datasets (s : BuildState) : BuildState :=
  { s with styleLabeledBuilt := true }

/-- Modelled from the spec: build_personality_list from the excluded builder
module — an idempotent ensure-built step for the personality list. -/
def build_personality_list (s : BuildState) : BuildState :=
  { s with personalityListBuilt := true }

/-- Model of os.path.join for a nonempty relative second component. -/
def pathJoin (a b : String) : String := a ++ "/" ++ b

/-- Modelled from the spec: TASK_FOLDER_NAME from the excluded builder module,
the name of the task-specific data folder. -/
def TASK_FOLDER_NAME : String := "style_gen"

/-- Modelled from the spec: get_style_labeled_data_folder from the excluded
builder module — the task-specific folder under the datapath that holds the
style-labeled data. -/
def get_style_labeled_data_folder (datapath : String) : String :=
  pathJoin datapath TASK_FOLDER_NAME

/-- get_style_labeled_data_path: ensure the labeled datasets are built, then
join the style-labeled data folder of the datapath, the base task name, and
the file named by the part of the datatype before the first colon plus a .txt
suffix.  The build status is threaded explicitly. -/
def get_style_labeled_data_path (opt : Opt) (base_task : String) (s : BuildState) :
    String × BuildState :=
  let s := build_style_labeled_datasets s
  let dt := (pySplit ':' ((opt.lookup "datatype").getD "")).headI
  (pathJoin
      (pathJoin (get_style_labeled_data_folder ((opt.lookup "datapath").getD ""))
        base_task)
      (dt ++ ".txt"),
    s)

/-- get_personality_list_path: ensure the personality list is built, then
join the datapath, the task folder name, and personality_list.txt. -/
def get_personality_list_path (opt : Opt) (s : BuildState) : String × BuildState :=
  let s := build_personality_list s
  (pathJoin (pathJoin ((opt.lookup "datapath").getD "") TASK_FOLDER_NAME)
      "personality_list.txt",
    s)

/-- The opt mutation performed by LabeledBlendedSkillTalkTeacher before it
delegates to the generic reader ParlAIDialogTeacher (external): it stores the
style-labeled data path for its fixed base task under the key
parlaidialogteacher_datafile. -/
def LabeledBlendedSkillTalkTeacher.initOpt (opt : Opt) (s : BuildState) :
    Opt × BuildState :=
  let ps := get_style_labeled_data_path opt "blended_skill_talk" s
  (Opt.set opt "parlaidialogteacher_datafile" ps.1, ps.2)

/-- The opt mutation performed by LabeledConvAI2PersonaTopicifierTeacher. -/
def LabeledConvAI2PersonaTopicifierTeacher.initOpt (opt : Opt) (s : BuildState) :
    Opt × BuildState :=
  let ps := get_style_labeled_data_path opt
    "blended_skill_talk:ConvAI2PersonaTopicifierTeacher" s
  (Opt.set opt "parlaidialogteacher_datafile" ps.1, ps.2)

/-- The opt mutation performed by LabeledEDPersonaTopicifierTeacher. -/
def LabeledEDPersonaTopicifierTeacher.initOpt (opt : Opt) (s : BuildState) :
    Opt × BuildState :=
  let ps := get_style_labeled_data_path opt
    "blended_skill_talk:EDPersonaTopicifierTeacher" s
  (Opt.set opt "parlaidialogteacher_datafile" ps.1, ps.2)

/-- The opt mutation performed by LabeledWoWPersonaTopicifierTeacher. -/
def LabeledWoWPersonaTopicifierTeacher.initOpt (opt : Opt) (s : BuildState) :
    Opt × BuildState :=
  let ps := get_style_labeled_data_path opt
    "blended_skill_talk:WoWPersonaTopicifierTeacher" s
  (Opt.set opt "parlaidialogteacher_datafile" ps.1, ps.2)

/-- The labeled turn of the end-to-end example of the spec, with
episode_done false as in a mid-episode turn. -/
def exampleLabeledTurn : Message :=
  [("text", FValue.str "hi\nhow are you"),
   ("labels", FValue.strList ["good thanks"]),
   ("personality", FValue.str "cheerful"),
   ("episode_done", FValue.bool false)]

/-- Looking up the key just written by setKey yields the new value. -/
theorem lookup_setKey_self {α : Type} (o : List (String × α)) (k : String) (v : α) :
    (setKey o k v).lookup k = some v := by
  induction o with
  | nil => simp [setKey, List.lookup]
  | cons p rest ih =>
    by_cases h : p.1 = k
    · simp [setKey, h, List.lookup]
    · simp only [setKey, if_neg h, List.lookup]
      have : (k == p.1) = false := by
        simp [beq_eq_false_iff_ne]
        exact fun hk => h hk.symm
      simp [this, ih]

/-- setKey leaves the value of every other key unchanged. -/
theorem lookup_setKey_ne {α : Type} (o : List (String × α)) (k k' : String) (v : α)
    (h : k' ≠ k) : (setKey o k v).lookup k' = o.lookup k' := by
  induction o with
  | nil =>
    have : (k' == k) = false := beq_eq_false_iff_ne.mpr h
    simp [setKey, List.lookup, this]
  | cons p rest ih =>
    by_cases hp : p.1 = k
    · subst hp
      have : (k' == p.1) = false := by simp [beq_eq_false_iff_ne, h]
      simp [setKey, List.lookup, this]
    · simp only [setKey, if_neg hp, List.lookup]
      cases hkp : (k' == p.1) with
      | true => rfl
      | false => simp [ih]

/-- C3: a present labels field whose length is not one makes act raise the
ValueError of the single-label check, so no output turn is produced. -/
theorem act_rejects_multilabel (m : Message) (ls : List String)
    (hl : m.lookup "labels" = some (FValue.strList ls)) (hn : ls.length ≠ 1) :
    PrevCurrUttStyleTeacher.act m =
      Except.error (ActError.valueError
        "PrevCurrUttStyleTeacher can only be used with one label!") := by
  simp [PrevCurrUttStyleTeacher.act, PrevCurrUttStyleTeacher.actSteps, hl, hn,
    Except.map]

/-- Witness for act_rejects_multilabel at the empty label list. -/
theorem act_rejects_multilabel_witness :
    PrevCurrUttStyleTeacher.act [("labels", FValue.strList [])] =
      Except.error (ActError.valueError
        "PrevCurrUttStyleTeacher can only be used with one label!") :=
  act_rejects_multilabel [("labels", FValue.strList [])] [] rfl (by decide)

/-- C5: a single present label that contains a newline makes act fail the
assert guarding the newline separator, so no output turn is produced. -/
theorem act_rejects_newline_label (m : Message) (l : String)
    (hl : m.lookup "labels" = some (FValue.strList [l]))
    (hc : l.toList.contains '\n' = true) :
    PrevCurrUttStyleTeacher.act m = Except.error ActError.assertionError := by
  have hmem : '\n' ∈ l.data := by simpa using hc
  simp [PrevCurrUttStyleTeacher.act, PrevCurrUttStyleTeacher.actSteps, hl, hmem,
    Except.map]

/-- Witness for act_rejects_newline_label at a label with an embedded
newline. -/
theorem act_rejects_newline_label_witness :
    PrevCurrUttStyleTeacher.act [("labels", FValue.strList ["a\nb"])] =
      Except.error ActError.assertionError :=
  act_rejects_newline_label [("labels", FValue.strList ["a\nb"])] "a\nb" rfl
    (by decide)

/-- C4: a turn without a labels field, but with a text field present or with
episode_done present and different from True, fails the consistency assert of
the unlabeled branch, so no output turn is produced. -/
theorem act_unlabeled_consistency (m : Message)
    (hl : m.lookup "labels" = none)
    (h : (m.lookup "text").isSome = true ∨
      ∃ v, m.lookup "episode_done" = some v ∧ v ≠ FValue.bool true) :
    PrevCurrUttStyleTeacher.act m = Except.error ActError.assertionError := by
  rcases h with ht | ⟨v, hv, hne⟩
  · simp [PrevCurrUttStyleTeacher.act, PrevCurrUttStyleTeacher.actSteps, hl, ht,
      Except.map]
  · cases ht : (m.lookup "text").isSome with
    | true =>
      simp [PrevCurrUttStyleTeacher.act, PrevCurrUttStyleTeacher.actSteps, hl, ht,
        Except.map]
    | false =>
      simp [PrevCurrUttStyleTeacher.act, PrevCurrUttStyleTeacher.actSteps, hl, ht,
        hv, hne, Except.map]

/-- Witness for act_unlabeled_consistency: an unlabeled turn that still has
text. -/
theorem act_unlabeled_consistency_witness :
    PrevCurrUttStyleTeacher.act [("text", FValue.str "hi")] =
      Except.error ActError.assertionError :=
  act_unlabeled_consistency [("text", FValue.str "hi")] rfl (Or.inl rfl)

/-- C6: a terminal turn with no text, no labels, and episode_done True is
returned unchanged: no field is added, removed, or modified, and episode_done
stays true. -/
theorem act_terminal_passthrough (m : Message)
    (hl : m.lookup "labels" = none) (ht : m.lookup "text" = none)
    (he : m.lookup "episode_done" = some (FValue.bool true)) :
    PrevCurrUttStyleTeacher.act m = Except.ok m := by
  simp [PrevCurrUttStyleTeacher.act, PrevCurrUttStyleTeacher.actSteps, hl, ht, he,
    Except.map, FixedDialogTeacher.process_action]

/-- Witness for act_terminal_passthrough at the bare terminal turn. -/
theorem act_terminal_passthrough_witness :
    PrevCurrUttStyleTeacher.act [("episode_done", FValue.bool true)] =
      Except.ok [("episode_done", FValue.bool true)] :=
  act_terminal_passthrough [("episode_done", FValue.bool true)] rfl rfl rfl

/-- Helper: in every successful branch of the body, the first component of
the result (the variable orig_act) is the input turn itself. -/
theorem actSteps_fst_const (m : Message) :
    (PrevCurrUttStyleTeacher.actSteps m).map Prod.fst
      = (PrevCurrUttStyleTeacher.actSteps m).map (fun _ => m) := by
  simp only [PrevCurrUttStyleTeacher.actSteps]
  repeat' split
  all_goals rfl

/-- C8: the field-rewriting step never changes the fetched turn: every
force_set of the body targets the deep copy new_act, so whenever the body
reaches the final process_action call, the variable orig_act it passes there
still equals the turn fetched from the inner source. -/
theorem act_never_mutates_fetched (m : Message) (p : Message × Message)
    (h : PrevCurrUttStyleTeacher.actSteps m = Except.ok p) : p.1 = m := by
  have hc := actSteps_fst_const m
  rw [h] at hc
  simpa [Except.map] using hc

/-- Witness for act_never_mutates_fetched at the example labeled turn: the
body succeeds there and hands the untouched original to process_action. -/
theorem act_never_mutates_fetched_witness :
    ((exampleLabeledTurn,
        ((exampleLabeledTurn.force_set "text"
              (FValue.str "how are you\ngood thanks")).force_set "labels"
            (FValue.strList ["cheerful"])).force_set "episode_done"
          (FValue.bool true)) : Message × Message).1 = exampleLabeledTurn :=
  act_never_mutates_fetched exampleLabeledTurn _ rfl

/-- C10: a turn with a single-entry labels field but no text field makes act
fail, producing no output turn: when the label has no newline the failure is
the KeyError of the lookup of the absent text field, and when the label has a
newline the newline assert fails first. -/
theorem act_labeled_needs_text (m : Message) (l : String)
    (hl : m.lookup "labels" = some (FValue.strList [l]))
    (ht : m.lookup "text" = none) :
    (PrevCurrUttStyleTeacher.act m).toOption = none := by
  cases hc : l.toList.contains '\n' with
  | true =>
    have hmem : '\n' ∈ l.data := by simpa using hc
    simp [PrevCurrUttStyleTeacher.act, PrevCurrUttStyleTeacher.actSteps, hl,
      hmem, Except.map, Except.toOption]
  | false =>
    have hmem : '\n' ∉ l.data := by simpa using hc
    simp [PrevCurrUttStyleTeacher.act, PrevCurrUttStyleTeacher.actSteps, hl, ht,
      hmem, Except.map, Except.toOption]

/-- Witness for act_labeled_needs_text at a labeled turn without text. -/
theorem act_labeled_needs_text_witness :
    (PrevCurrUttStyleTeacher.act [("labels", FValue.strList ["hi"])]).toOption
      = none :=
  act_labeled_needs_text [("labels", FValue.strList ["hi"])] "hi" rfl rfl

/-- C1 fails on the code: at the labeled turn of the end-to-end example of
the spec, act returns the fetched turn with its original text and labels.
The deep copy new_act does receive exactly the claimed rewrite (second
conjunct), but the source passes orig_act, not new_act, to process_action,
so the rewrite never reaches the returned turn. -/
theorem act_discards_rewritten_text_and_labels :
    PrevCurrUttStyleTeacher.act exampleLabeledTurn = Except.ok exampleLabeledTurn
    ∧ (PrevCurrUttStyleTeacher.actSteps exampleLabeledTurn).toOption.map
        (fun p => (p.2.lookup "text", p.2.lookup "labels"))
      = some (some (FValue.str "how are you\ngood thanks"),
          some (FValue.strList ["cheerful"])) :=
  ⟨rfl, rfl⟩

/-- C2 fails on the code: the same example turn is accepted by act, yet the
returned turn still has episode_done false, because episode_done is forced
to true only on the discarded copy new_act. -/
theorem act_keeps_input_episode_done :
    PrevCurrUttStyleTeacher.act exampleLabeledTurn = Except.ok exampleLabeledTurn
    ∧ exampleLabeledTurn.lookup "episode_done" = some (FValue.bool false)
    ∧ (PrevCurrUttStyleTeacher.actSteps exampleLabeledTurn).toOption.map
        (fun p => p.2.lookup "episode_done")
      = some (some (FValue.bool true)) :=
  ⟨rfl, rfl, rfl⟩

/-- C7: get_style_labeled_data_path marks the labeled datasets built and
returns the join of the style-labeled data folder of the datapath, the base
task, and the datatype prefix before the first colon with a .txt suffix; and
each Labeled* teacher stores exactly this path (for its fixed base task)
under parlaidialogteacher_datafile for the generic reader to consume. -/
theorem style_labeled_path_correct (opt : Opt) (base_task dp dt : String)
    (s : BuildState)
    (hdp : opt.lookup "datapath" = some dp)
    (hdt : opt.lookup "datatype" = some dt) :
    (get_style_labeled_data_path opt base_task s).1
      = pathJoin (pathJoin (get_style_labeled_data_folder dp) base_task)
          ((pySplit ':' dt).headI ++ ".txt")
    ∧ (get_style_labeled_data_path opt base_task s).2.styleLabeledBuilt = true
    ∧ (LabeledBlendedSkillTalkTeacher.initOpt opt s).1.lookup
          "parlaidialogteacher_datafile"
        = some (get_style_labeled_data_path opt "blended_skill_talk" s).1
    ∧ (LabeledConvAI2PersonaTopicifierTeacher.initOpt opt s).1.lookup
          "parlaidialogteacher_datafile"
        = some (get_style_labeled_data_path opt
            "blended_skill_talk:ConvAI2PersonaTopicifierTeacher" s).1
    ∧ (LabeledEDPersonaTopicifierTeacher.initOpt opt s).1.lookup
          "parlaidialogteacher_datafile"
        = some (get_style_labeled_data_path opt
            "blended_skill_talk:EDPersonaTopicifierTeacher" s).1
    ∧ (LabeledWoWPersonaTopicifierTeacher.initOpt opt s).1.lookup
          "parlaidialogteacher_datafile"
        = some (get_style_labeled_data_path opt
            "blended_skill_talk:WoWPersonaTopicifierTeacher" s).1 := by
  refine ⟨?_, rfl, ?_, ?_, ?_, ?_⟩
  · simp [get_style_labeled_data_path, hdp, hdt]
  all_goals
    simp [LabeledBlendedSkillTalkTeacher.initOpt,
      LabeledConvAI2PersonaTopicifierTeacher.initOpt,
      LabeledEDPersonaTopicifierTeacher.initOpt,
      LabeledWoWPersonaTopicifierTeacher.initOpt,
      Opt.set, lookup_setKey_self]

/-- Witness for style_labeled_path_correct on concrete options. -/
theorem style_labeled_path_correct_witness :
    (get_style_labeled_data_path [("datapath", "/data"), ("datatype", "train:evalmode")]
        "blended_skill_talk" ⟨false, false⟩).1
      = "/data/style_gen/blended_skill_talk/train.txt" := by
  have h := (style_labeled_path_correct
    [("datapath", "/data"), ("datatype", "train:evalmode")]
    "blended_skill_talk" "/data" "train:evalmode" ⟨false, false⟩ rfl rfl).1
  rw [h]
  rfl

/-- C9: each of the four Labeled* teacher constructors mutates the
caller-supplied opt by storing the computed style-labeled data path of its
fixed base task under parlaidialogteacher_datafile, and leaves the value of
every other key unchanged. -/
theorem labeled_teachers_mutate_only_datafile (opt : Opt) (s : BuildState)
    (k : String) (hk : k ≠ "parlaidialogteacher_datafile") :
    ((LabeledBlendedSkillTalkTeacher.initOpt opt s).1.lookup
          "parlaidialogteacher_datafile"
        = some (get_style_labeled_data_path opt "blended_skill_talk" s).1
      ∧ (LabeledBlendedSkillTalkTeacher.initOpt opt s).1.lookup k = opt.lookup k)
    ∧ ((LabeledConvAI2PersonaTopicifierTeacher.initOpt opt s).1.lookup
          "parlaidialogteacher_datafile"
        = some (get_style_labeled_data_path opt
            "blended_skill_talk:ConvAI2PersonaTopicifierTeacher" s).1
      ∧ (LabeledConvAI2PersonaTopicifierTeacher.initOpt opt s).1.lookup k
        = opt.lookup k)
    ∧ ((LabeledEDPersonaTopicifierTeacher.initOpt opt s).1.lookup
          "parlaidialogteacher_datafile"
        = some (get_style_labeled_data_path opt
            "blended_skill_talk:EDPersonaTopicifierTeacher" s).1
      ∧ (LabeledEDPersonaTopicifierTeacher.initOpt opt s).1.lookup k
        = opt.lookup k)
    ∧ ((LabeledWoWPersonaTopicifierTeacher.initOpt opt s).1.lookup
          "parlaidialogteacher_datafile"
        = some (get_style_labeled_data_path opt
            "blended_skill_talk:WoWPersonaTopicifierTeacher" s).1
      ∧ (LabeledWoWPersonaTopicifierTeacher.initOpt opt s).1.lookup k
        = opt.lookup k) := by
  refine ⟨⟨?_, ?_⟩, ⟨?_, ?_⟩, ⟨?_, ?_⟩, ⟨?_, ?_⟩⟩
  all_goals
    simp [LabeledBlendedSkillTalkTeacher.initOpt,
      LabeledConvAI2PersonaTopicifierTeacher.initOpt,
      LabeledEDPersonaTopicifierTeacher.initOpt,
      LabeledWoWPersonaTopicifierTeacher.initOpt,
      Opt.set, lookup_setKey_self, lookup_setKey_ne _ _ _ _ hk]

/-- Witness for labeled_teachers_mutate_only_datafile: on concrete options
the datatype key is untouched by the constructor of the blended skill talk
teacher. -/
theorem labeled_teachers_mutate_only_datafile_witness :
    (LabeledBlendedSkillTalkTeacher.initOpt
        [("datapath", "/data"), ("datatype", "train")] ⟨false, false⟩).1.lookup
      "datatype" = some "train" := by
  have h := (labeled_teachers_mutate_only_datafile
    [("datapath", "/data"), ("datatype", "train")] ⟨false, false⟩
    "datatype" (by decide)).1.2
  rw [h]
  rfl
